import Mathlib

/-!
Shallow embedding of the session store in `local_db.py` (module-level
functions `store_user_auth`, `is_valid_token`, `get_login_by_token`,
`get_role_id_by_token`, `remove_token` over the PostgreSQL table
`sessions(id, token CHAR(64), login CHAR(64), role_id INTEGER,
expires TIMESTAMP(0))`).

Modelling choices:
* The table is a `List Session` in insertion order (the `SERIAL` id is
  never consulted by any operation, so it is omitted).
* Timestamps are `Nat` seconds; `current_timestamp` / `datetime.now()`
  become an explicit `now` argument. `TTL = datetime.timedelta(hours=12)`
  is 43200 seconds.
* `secrets.token_hex(32)` becomes a function of an explicit list of
  random bytes (`token_hex`), hex-encoding 32 bytes to 64 characters.
* `CHAR(64)` column semantics: values are stored padded with spaces to
  width 64 (`charPad`), exactly what the backend hands back on SELECT;
  Python's `str.strip()` is `pyStrip` (drops whitespace from both ends).
* Fallible lookups (`res[0][0]` on a possibly empty result set) return
  `Option`; `none` models the out-of-range/empty-result failure.
-/

namespace SessionStore

/-- One row of the `sessions` table, as stored by the backend. -/
structure Session where
  token : String
  login : String
  role_id : Int
  expires : Nat
  deriving Repr, DecidableEq

/-- The database state: the `sessions` table in insertion order. -/
structure DB where
  sessions : List Session
  deriving Repr, DecidableEq

/-- Embeds `TTL = datetime.timedelta(hours=12)`, in seconds. -/
def TTL : Nat := 12 * 60 * 60

/-- Width of the `CHAR(64)` columns. -/
def charWidth : Nat := 64

/-- Fixed-width `CHAR(64)` storage: pad with spaces to width 64 (identity on longer
strings; the code only stores 64-char tokens and short logins). -/
def charPad (s : String) : String :=
  s ++ String.mk (List.replicate (charWidth - s.length) ' ')

/-- Lower-case hex digit for a value `0..15`. -/
def hexDigit (n : Nat) : Char :=
  if n < 10 then Char.ofNat (48 + n) else Char.ofNat (87 + n)

/-- Two-character hex encoding of one byte. -/
def byteToHex (b : Nat) : List Char :=
  [hexDigit (b / 16 % 16), hexDigit (b % 16)]

/-- Embeds `secrets.token_hex(nbytes)`: hex-encode `nbytes` bytes drawn from the
random source. -/
def token_hex (nbytes : Nat) (rand : List Nat) : String :=
  String.mk (((rand.take nbytes).map (fun b => byteToHex (b % 256))).flatten)

/-- Embeds `_generate_token()`: `secrets.token_hex(32)`. -/
def _generate_token (rand : List Nat) : String := token_hex 32 rand

/-- Python `str.strip()` on the underlying character list: drop
whitespace from both ends. -/
def stripList (l : List Char) : List Char :=
  ((l.dropWhile Char.isWhitespace).reverse.dropWhile Char.isWhitespace).reverse

/-- Python `str.strip()`. -/
def pyStrip (s : String) : String := String.mk (stripList s.data)

/-- Embeds `store_user_auth(login, role_id)`: generate a token, compute
`expires = now + TTL`, INSERT one row, return the token. -/
def store_user_auth (rand : List Nat) (login : String) (role_id : Int)
    (now : Nat) (db : DB) : String × DB :=
  let token := _generate_token rand
  let expires := now + TTL
  (token, ⟨db.sessions ++ [⟨token, charPad login, role_id, expires⟩]⟩)

/-- Embeds `is_valid_token(token)`: SELECT whether a row with this token and
`expires > current_timestamp` exists, then DELETE every row with
`expires <= current_timestamp`; return the pre-sweep SELECT result. -/
def is_valid_token (token : String) (now : Nat) (db : DB) : Bool × DB :=
  let res := db.sessions.any (fun s => s.token == token && decide (now < s.expires))
  (res, ⟨db.sessions.filter (fun s => decide (now < s.expires))⟩)

/-- Embeds `get_login_by_token(token)`: `SELECT login ... LIMIT 1`, then
`res[0][0].strip()`; `none` models the empty-result failure. -/
def get_login_by_token (token : String) (db : DB) : Option String :=
  (db.sessions.find? (fun s => s.token == token)).map (fun s => pyStrip s.login)

/-- Embeds `get_role_id_by_token(token)`: `SELECT role_id ... LIMIT 1`, then
`res[0][0]`; `none` models the empty-result failure. -/
def get_role_id_by_token (token : String) (db : DB) : Option Int :=
  (db.sessions.find? (fun s => s.token == token)).map (fun s => s.role_id)

/-- Embeds `remove_token(token)`: `DELETE FROM sessions WHERE token = $1`. -/
def remove_token (token : String) (db : DB) : DB :=
  ⟨db.sessions.filter (fun s => s.token != token)⟩

/-- C1: `is_valid_token t` returns true iff some row exists whose token
equals `t` and whose `expires` is strictly greater than the current
time; false when no such row exists or the matching row has expired. -/
theorem is_valid_token_iff_live_row (t : String) (now : Nat) (db : DB) :
    (is_valid_token t now db).1 = true ↔
      ∃ s ∈ db.sessions, s.token = t ∧ now < s.expires := by
  simp [is_valid_token, List.any_eq_true]

/-- C2: an `is_valid_token` call removes from the table exactly the rows
whose `expires` is at or before the call-time `now` and no others: every
survivor was present before and is strictly unexpired, every strictly
unexpired row survives (in particular the caller's own still-valid row),
and the returned boolean is evaluated against the pre-sweep state. -/
theorem is_valid_token_gc_exact (t : String) (now : Nat) (db : DB) :
    (∀ s ∈ ((is_valid_token t now db).2).sessions, s ∈ db.sessions ∧ now < s.expires) ∧
    (∀ s ∈ db.sessions, now < s.expires → s ∈ ((is_valid_token t now db).2).sessions) ∧
    ((is_valid_token t now db).1 = true ↔
      ∃ s ∈ db.sessions, s.token = t ∧ now < s.expires) := by
  refine ⟨?_, ?_, ?_⟩
  · intro s hs
    rw [is_valid_token] at hs
    simpa using List.mem_filter.mp hs
  · intro s hs hlive
    rw [is_valid_token]
    exact List.mem_filter.mpr ⟨hs, by simpa using hlive⟩
  · simp [is_valid_token, List.any_eq_true]

/-- C3: `store_user_auth login role_id` appends exactly one new row —
holding the generated token, the given login under `CHAR(64)` fixed-width
storage, the given role_id, and `expires = now + 12 hours` — returns that
token, and leaves every pre-existing row unchanged. -/
theorem store_user_auth_inserts_one_row (rand : List Nat) (login : String)
    (role_id : Int) (now : Nat) (db : DB) :
    (store_user_auth rand login role_id now db).1 = _generate_token rand ∧
    ((store_user_auth rand login role_id now db).2).sessions =
      db.sessions ++
        [⟨_generate_token rand, charPad login, role_id, now + 12 * 60 * 60⟩] :=
  ⟨rfl, rfl⟩

/-- C9: `remove_token t` deletes every row whose token equals `t` — also
duplicates and expired rows — and keeps exactly the rows whose token
differs from `t`. -/
theorem remove_token_removes_all_matching (t : String) (db : DB) (s : Session) :
    s ∈ (remove_token t db).sessions ↔ s ∈ db.sessions ∧ s.token ≠ t := by
  simp [remove_token, List.mem_filter]

/-- C10: the token returned by `store_user_auth` is determined solely by
the random source: with the same random bytes, two calls with different
logins, role_ids, clocks, and database states return the same token. -/
theorem token_independent_of_identity (rand : List Nat) (l1 l2 : String)
    (r1 r2 : Int) (n1 n2 : Nat) (d1 d2 : DB) :
    (store_user_auth rand l1 r1 n1 d1).1 = (store_user_auth rand l2 r2 n2 d2).1 :=
  rfl

theorem dropWhile_ws_replicate_append (n : Nat) (l : List Char) :
    List.dropWhile Char.isWhitespace (List.replicate n ' ' ++ l) =
      List.dropWhile Char.isWhitespace l := by
  induction n with
  | zero => rfl
  | succ k ih =>
      rw [List.replicate_succ, List.cons_append, List.dropWhile_cons,
        if_pos (by decide : Char.isWhitespace ' ' = true)]
      exact ih

theorem stripList_append_spaces (l : List Char) (n : Nat) :
    stripList (l ++ List.replicate n ' ') = stripList l := by
  unfold stripList
  rw [List.dropWhile_append]
  by_cases h : (List.dropWhile Char.isWhitespace l).isEmpty
  · rw [if_pos h]
    have h2 : List.dropWhile Char.isWhitespace (List.replicate n ' ') = ([] : List Char) := by
      have h3 := dropWhile_ws_replicate_append n []
      rwa [List.append_nil] at h3
    rw [h2, List.isEmpty_iff.mp h]
  · rw [if_neg h, List.reverse_append, List.reverse_replicate,
      dropWhile_ws_replicate_append]

/-- Stripping undoes the `CHAR(64)` space padding. -/
theorem pyStrip_charPad (s : String) : pyStrip (charPad s) = pyStrip s := by
  obtain ⟨l⟩ := s
  show String.mk (stripList (l ++ List.replicate (charWidth - l.length) ' ')) =
    String.mk (stripList l)
  exact congrArg String.mk (stripList_append_spaces l _)

/-- C5: `remove_token` is idempotent and total: removing twice equals
removing once, removing a token that matches no row leaves the table
unchanged (a no-op, not an error), and rows whose token differs from `t`
are never affected. -/
theorem remove_token_idempotent_total (t : String) (db : DB) :
    remove_token t (remove_token t db) = remove_token t db ∧
    ((∀ s ∈ db.sessions, s.token ≠ t) → remove_token t db = db) ∧
    (∀ s ∈ db.sessions, s.token ≠ t → s ∈ (remove_token t db).sessions) := by
  obtain ⟨l⟩ := db
  refine ⟨?_, ?_, ?_⟩
  · show DB.mk (List.filter _ (List.filter _ l)) = DB.mk (List.filter _ l)
    rw [List.filter_filter]
    exact congrArg DB.mk (by simp)
  · intro h
    show DB.mk (List.filter _ l) = DB.mk l
    refine congrArg DB.mk (List.filter_eq_self.mpr ?_)
    intro a ha
    simpa using h a ha
  · intro s hs hne
    exact List.mem_filter.mpr ⟨hs, by simpa using hne⟩

/-- Witness for C5 at a concrete table. -/
theorem remove_token_idempotent_total_witness :
    remove_token "x" (remove_token "x" ⟨[⟨"t1", "alice", 2, 100⟩]⟩) =
      remove_token "x" ⟨[⟨"t1", "alice", 2, 100⟩]⟩ ∧
    remove_token "x" (⟨[⟨"t1", "alice", 2, 100⟩]⟩ : DB) = ⟨[⟨"t1", "alice", 2, 100⟩]⟩ ∧
    (⟨"t1", "alice", 2, 100⟩ : Session) ∈
      (remove_token "x" ⟨[⟨"t1", "alice", 2, 100⟩]⟩).sessions :=
  ⟨(remove_token_idempotent_total "x" ⟨[⟨"t1", "alice", 2, 100⟩]⟩).1,
   (remove_token_idempotent_total "x" ⟨[⟨"t1", "alice", 2, 100⟩]⟩).2.1 (by decide),
   (remove_token_idempotent_total "x" ⟨[⟨"t1", "alice", 2, 100⟩]⟩).2.2
     ⟨"t1", "alice", 2, 100⟩ (by decide) (by decide)⟩

/-- C6: for a token matching no row, both lookups produce the
empty-result failure (`none`, the embedding of the out-of-range error)
rather than any value. -/
theorem lookup_missing_token_fails (t : String) (db : DB)
    (h : ∀ s ∈ db.sessions, s.token ≠ t) :
    get_login_by_token t db = none ∧ get_role_id_by_token t db = none := by
  have hf : db.sessions.find? (fun s => s.token == t) = none :=
    List.find?_eq_none.mpr (by intro x hx; simpa using h x hx)
  simp [get_login_by_token, get_role_id_by_token, hf]

/-- Witness for C6: lookups on an unknown token fail on a concrete table. -/
theorem lookup_missing_token_fails_witness :
    get_login_by_token "zz" ⟨[⟨"t1", "alice", 2, 100⟩]⟩ = none ∧
    get_role_id_by_token "zz" ⟨[⟨"t1", "alice", 2, 100⟩]⟩ = none :=
  lookup_missing_token_fails "zz" ⟨[⟨"t1", "alice", 2, 100⟩]⟩ (by decide)

/-- C7: for a token with a matching row (the first one, per `LIMIT 1`),
`get_login_by_token` returns the stored login with its fixed-width
padding stripped and `get_role_id_by_token` returns the stored role_id
unmodified; neither result depends on the row's `expires` or on any
clock (the definitions take no time argument), so expired rows resolve
just as live ones do. -/
theorem lookup_found_independent_of_expiry (t : String) (db : DB) (s : Session)
    (h : db.sessions.find? (fun x => x.token == t) = some s) :
    get_login_by_token t db = some (pyStrip s.login) ∧
    get_role_id_by_token t db = some s.role_id := by
  simp [get_login_by_token, get_role_id_by_token, h]

/-- Witness for C7 at a concrete table whose only row is already
expired (`expires = 0`): both lookups still succeed, and the padded
login comes back stripped. -/
theorem lookup_found_independent_of_expiry_witness :
    get_login_by_token "t1" ⟨[⟨"t1", "alice  ", 2, 0⟩]⟩ = some "alice" ∧
    get_role_id_by_token "t1" ⟨[⟨"t1", "alice  ", 2, 0⟩]⟩ = some 2 :=
  lookup_found_independent_of_expiry "t1" ⟨[⟨"t1", "alice  ", 2, 0⟩]⟩
    ⟨"t1", "alice  ", 2, 0⟩ (by decide)

theorem find?_append_right_of_none {α : Type} (p : α → Bool) (l m : List α)
    (h : l.find? p = none) : (l ++ m).find? p = m.find? p := by
  rw [List.find?_append, h, Option.none_or]

/-- C4: a token issued at time `T` into a table holding no row with that
token reports valid at exactly the check times `Tp` with
`Tp < T + 12 hours`, and invalid at every `Tp` at or beyond it. -/
theorem issued_token_validity_window (rand : List Nat) (login : String)
    (role_id : Int) (T Tp : Nat) (db : DB)
    (hfresh : ∀ s ∈ db.sessions, s.token ≠ _generate_token rand) :
    ((is_valid_token (store_user_auth rand login role_id T db).1 Tp
      ((store_user_auth rand login role_id T db).2)).1 = true ↔
      Tp < T + 12 * 60 * 60) := by
  have hold : db.sessions.any
      (fun s => s.token == _generate_token rand && decide (Tp < s.expires)) = false := by
    rw [List.any_eq_false]
    intro x hx
    simp [hfresh x hx]
  show ((db.sessions ++ [(⟨_generate_token rand, charPad login, role_id, T + TTL⟩ : Session)]).any
      (fun s => s.token == _generate_token rand && decide (Tp < s.expires)) = true ↔
      Tp < T + 12 * 60 * 60)
  rw [List.any_append, hold, Bool.false_or, List.any_cons, List.any_nil]
  simp [TTL]

/-- Witness for C4: issuing into an empty table at `T = 0` and checking
at `Tp = 1`, inside the 12-hour window. -/
theorem issued_token_validity_window_witness :
    ((is_valid_token (store_user_auth (List.replicate 32 0) "alice" 2 0 ⟨[]⟩).1 1
      ((store_user_auth (List.replicate 32 0) "alice" 2 0 ⟨[]⟩).2)).1 = true ↔
      1 < 0 + 12 * 60 * 60) :=
  issued_token_validity_window (List.replicate 32 0) "alice" 2 0 1 ⟨[]⟩
    (by intro s hs; exact absurd hs (List.not_mem_nil s))

/-- C8 counterexample: issuing for login `" alice"` (leading space) and
resolving the returned token yields `"alice"` — `str.strip()` removes
the leading space together with the `CHAR(64)` padding — so
`getLogin(T)` does not equal the login that was issued. -/
theorem round_trip_login_counterexample :
    get_login_by_token (store_user_auth (List.replicate 32 0) " alice" 2 0 ⟨[]⟩).1
        ((store_user_auth (List.replicate 32 0) " alice" 2 0 ⟨[]⟩).2) = some "alice" ∧
    get_login_by_token (store_user_auth (List.replicate 32 0) " alice" 2 0 ⟨[]⟩).1
        ((store_user_auth (List.replicate 32 0) " alice" 2 0 ⟨[]⟩).2) ≠ some " alice" := by
  constructor <;> decide

/-- C8 (amended): for every login that is invariant under stripping
(no surrounding whitespace) and every role_id, issuing a fresh token `T`
gives `getLogin(T) = login`, `getRoleId(T) = role_id`, `isValid(T)` true
at any check time inside the 12-hour window, and `isValid(T)` false at
any time after `revoke(T)`. -/
theorem round_trip_amended (rand : List Nat) (login : String) (role_id : Int)
    (now now2 : Nat) (db : DB)
    (hlogin : pyStrip login = login)
    (hfresh : ∀ s ∈ db.sessions, s.token ≠ _generate_token rand) :
    get_login_by_token (store_user_auth rand login role_id now db).1
        ((store_user_auth rand login role_id now db).2) = some login ∧
    get_role_id_by_token (store_user_auth rand login role_id now db).1
        ((store_user_auth rand login role_id now db).2) = some role_id ∧
    (now2 < now + TTL →
      (is_valid_token (store_user_auth rand login role_id now db).1 now2
        ((store_user_auth rand login role_id now db).2)).1 = true) ∧
    (is_valid_token (store_user_auth rand login role_id now db).1 now2
      (remove_token (store_user_auth rand login role_id now db).1
        ((store_user_auth rand login role_id now db).2))).1 = false := by
  have hnone : db.sessions.find? (fun s => s.token == _generate_token rand) = none :=
    List.find?_eq_none.mpr (by intro x hx; simpa using hfresh x hx)
  have hfind : (db.sessions ++
      [(⟨_generate_token rand, charPad login, role_id, now + TTL⟩ : Session)]).find?
        (fun s => s.token == _generate_token rand) =
      some (⟨_generate_token rand, charPad login, role_id, now + TTL⟩ : Session) := by
    rw [find?_append_right_of_none _ _ _ hnone]
    exact List.find?_cons_of_pos _ (by simp)
  refine ⟨?_, ?_, ?_, ?_⟩
  · show ((db.sessions ++
        [(⟨_generate_token rand, charPad login, role_id, now + TTL⟩ : Session)]).find?
          (fun s => s.token == _generate_token rand)).map (fun s => pyStrip s.login) =
        some login
    rw [hfind]
    show some (pyStrip (charPad login)) = some login
    rw [pyStrip_charPad, hlogin]
  · show ((db.sessions ++
        [(⟨_generate_token rand, charPad login, role_id, now + TTL⟩ : Session)]).find?
          (fun s => s.token == _generate_token rand)).map (fun s => s.role_id) =
        some role_id
    rw [hfind]
    rfl
  · intro hwin
    show ((db.sessions ++
        [(⟨_generate_token rand, charPad login, role_id, now + TTL⟩ : Session)]).any
          (fun s => s.token == _generate_token rand && decide (now2 < s.expires)) = true)
    rw [List.any_append, List.any_cons, List.any_nil]
    simp [hwin]
  · show (((db.sessions ++
        [(⟨_generate_token rand, charPad login, role_id, now + TTL⟩ : Session)]).filter
          (fun s => s.token != _generate_token rand)).any
          (fun s => s.token == _generate_token rand && decide (now2 < s.expires)) = false)
    rw [List.any_eq_false]
    intro x hx
    have hxne : x.token ≠ _generate_token rand := by
      simpa using (List.mem_filter.mp hx).2
    simp [hxne]

/-- Witness for C8 (amended) at login `"alice"`, role 2, issue time 0,
check time 1, empty initial table. -/
theorem round_trip_amended_witness :
    get_login_by_token (store_user_auth (List.replicate 32 7) "alice" 2 0 ⟨[]⟩).1
        ((store_user_auth (List.replicate 32 7) "alice" 2 0 ⟨[]⟩).2) = some "alice" ∧
    get_role_id_by_token (store_user_auth (List.replicate 32 7) "alice" 2 0 ⟨[]⟩).1
        ((store_user_auth (List.replicate 32 7) "alice" 2 0 ⟨[]⟩).2) = some 2 ∧
    (is_valid_token (store_user_auth (List.replicate 32 7) "alice" 2 0 ⟨[]⟩).1 1
        ((store_user_auth (List.replicate 32 7) "alice" 2 0 ⟨[]⟩).2)).1 = true ∧
    (is_valid_token (store_user_auth (List.replicate 32 7) "alice" 2 0 ⟨[]⟩).1 1
      (remove_token (store_user_auth (List.replicate 32 7) "alice" 2 0 ⟨[]⟩).1
        ((store_user_auth (List.replicate 32 7) "alice" 2 0 ⟨[]⟩).2))).1 = false := by
  have h := round_trip_amended (List.replicate 32 7) "alice" 2 0 1 ⟨[]⟩
    (by decide) (by intro s hs; exact absurd hs (List.not_mem_nil s))
  exact ⟨h.1, h.2.1, h.2.2.1 (by decide), h.2.2.2⟩

/-- Witness for C2 on a concrete two-row table (one expired row, one
live row, checking the live token at `now = 10`): the live row survives
the sweep, the expired row does not, and the call reports true. -/
theorem is_valid_token_gc_exact_witness :
    (⟨"b", "y", 2, 100⟩ : Session) ∈
      ((is_valid_token "b" 10 ⟨[⟨"a", "x", 1, 5⟩, ⟨"b", "y", 2, 100⟩]⟩).2).sessions ∧
    ((⟨"a", "x", 1, 5⟩ : Session) ∈
      ((is_valid_token "b" 10 ⟨[⟨"a", "x", 1, 5⟩, ⟨"b", "y", 2, 100⟩]⟩).2).sessions → False) ∧
    (is_valid_token "b" 10 ⟨[⟨"a", "x", 1, 5⟩, ⟨"b", "y", 2, 100⟩]⟩).1 = true :=
  ⟨(is_valid_token_gc_exact "b" 10 ⟨[⟨"a", "x", 1, 5⟩, ⟨"b", "y", 2, 100⟩]⟩).2.1
      ⟨"b", "y", 2, 100⟩ (by decide) (by decide),
   fun hmem =>
     absurd ((is_valid_token_gc_exact "b" 10 ⟨[⟨"a", "x", 1, 5⟩, ⟨"b", "y", 2, 100⟩]⟩).1
       ⟨"a", "x", 1, 5⟩ hmem).2 (by decide),
   (is_valid_token_gc_exact "b" 10 ⟨[⟨"a", "x", 1, 5⟩, ⟨"b", "y", 2, 100⟩]⟩).2.2.mpr
     ⟨⟨"b", "y", 2, 100⟩, by decide, rfl, by decide⟩⟩

end SessionStore
